import Mathlib

/-!
Shallow embedding of src/lib/classes/many_to_many.py.

The Python module defines three classes, Article, Author and Magazine,
linked by object references and a class-level registry Article.all.
We model the Python heap explicitly: a State holds one list per class,
an object is referred to by its index (object identity) in that list,
and a Python reference value is a PyVal. Attribute reads of a possibly
unset underscore field (such as self._title when the title setter
silently ignored every assignment) are modelled as Except, returning
an attributeError exactly where Python would raise AttributeError.
Setters that raise ValueError in the source return an Except error;
setters that silently ignore invalid input are total functions.
-/

namespace ManyToMany

/-- A Python value as far as this module inspects one: a reference to an
Author, Magazine or Article object (by heap index), a string, an int, or
None. isinstance checks in the source are constructor tests here. -/
inductive PyVal where
  | authorRef (i : Nat)
  | magazineRef (i : Nat)
  | articleRef (i : Nat)
  | str (s : String)
  | int (n : Int)
  | nil
deriving DecidableEq, Repr

/-- The two exception kinds the module can raise: ValueError (raised
explicitly by the author/magazine setters) and AttributeError (raised by
Python when reading an underscore field that was never assigned). -/
inductive PyErr where
  | valueError (msg : String)
  | attributeError (attr : String)
deriving DecidableEq, Repr

deriving instance DecidableEq for Except

/-- The instance attributes of an Article: _author, _magazine, _title.
A field is none while the underscore attribute is unset. -/
structure ArticleObj where
  author : Option Nat := none
  magazine : Option Nat := none
  title : Option String := none
deriving DecidableEq, Repr

/-- The instance attributes of an Author: _name and _articles
(a list of Article heap indices). -/
structure AuthorObj where
  name : Option String := none
  articles : List Nat := []
deriving DecidableEq, Repr

/-- The instance attributes of a Magazine: _name, _category, _articles. -/
structure MagazineObj where
  name : Option String := none
  category : Option String := none
  articles : List Nat := []
deriving DecidableEq, Repr

/-- The Python heap: all objects ever constructed, per class, in creation
order, plus the class attribute Article.all as a list of Article indices. -/
structure State where
  authors : List AuthorObj := []
  magazines : List MagazineObj := []
  articles : List ArticleObj := []
  allArticles : List Nat := []
deriving DecidableEq, Repr

/-- Dereference an Article index (total; claims only use valid indices). -/
def State.articleObj (st : State) (i : Nat) : ArticleObj := st.articles.getD i {}

/-- Dereference an Author index. -/
def State.authorObj (st : State) (i : Nat) : AuthorObj := st.authors.getD i {}

/-- Dereference a Magazine index. -/
def State.magazineObj (st : State) (i : Nat) : MagazineObj := st.magazines.getD i {}

/-- Article.title setter (lines 26-45): silently ignores non-strings and
strings of length outside [5,50]; once _title is set (hasattr check), every
further assignment is a no-op. -/
def Article.titleSet (a : ArticleObj) (value : PyVal) : ArticleObj :=
  match value with
  | PyVal.str s =>
    if s.length < 5 || s.length > 50 then a
    else if a.title.isSome then a
    else { a with title := some s }
  | _ => a

/-- Article.title getter (lines 21-24): returns self._title, raising
AttributeError when the field was never set. -/
def Article.titleGet (a : ArticleObj) : Except PyErr String :=
  match a.title with
  | some s => Except.ok s
  | none => Except.error (PyErr.attributeError "_title")

/-- Article.author setter (lines 52-65): raises ValueError unless the value
is an Author instance; otherwise stores the reference. -/
def Article.authorSet (a : ArticleObj) (value : PyVal) : Except PyErr ArticleObj :=
  match value with
  | PyVal.authorRef i => Except.ok { a with author := some i }
  | _ => Except.error (PyErr.valueError "Author must be of type Author.")

/-- Article.author getter (lines 47-50). -/
def Article.authorGet (a : ArticleObj) : Except PyErr Nat :=
  match a.author with
  | some i => Except.ok i
  | none => Except.error (PyErr.attributeError "_author")

/-- Article.magazine setter (lines 72-85): raises ValueError unless the
value is a Magazine instance. -/
def Article.magazineSet (a : ArticleObj) (value : PyVal) : Except PyErr ArticleObj :=
  match value with
  | PyVal.magazineRef i => Except.ok { a with magazine := some i }
  | _ => Except.error (PyErr.valueError "Magazine must be of type Magazine.")

/-- Article.magazine getter (lines 67-70). -/
def Article.magazineGet (a : ArticleObj) : Except PyErr Nat :=
  match a.magazine with
  | some i => Except.ok i
  | none => Except.error (PyErr.attributeError "_magazine")

/-- Lines 10-11 of Article.__init__: append self to author._articles if
not already present. Membership by list index models Python identity
equality, the default == on these classes. -/
def State.regAuthorSide (st : State) (ai aid : Nat) : State :=
  if aid ∈ (st.authorObj ai).articles then st
  else { st with authors := st.authors.set ai ({ st.authorObj ai with articles := (st.authorObj ai).articles ++ [aid] }) }

/-- Lines 13-15 of Article.__init__: the magazine-side registration. -/
def State.regMagazineSide (st : State) (mi aid : Nat) : State :=
  if aid ∈ (st.magazineObj mi).articles then st
  else { st with magazines := st.magazines.set mi ({ st.magazineObj mi with articles := (st.magazineObj mi).articles ++ [aid] }) }

/-- Lines 17-19 of Article.__init__: the registry-side registration. -/
def State.regRegistry (st : State) (aid : Nat) : State :=
  if aid ∈ st.allArticles then st
  else { st with allArticles := st.allArticles ++ [aid] }

/-- Lines 9-19 of Article.__init__ in order: author side, magazine side,
registry. -/
def State.registerArticle (st : State) (ai mi aid : Nat) : State :=
  ((st.regAuthorSide ai aid).regMagazineSide mi aid).regRegistry aid

/-- Article.__init__ (lines 4-19). The assignments self.author = author and
self.magazine = magazine invoke the validating setters and raise ValueError
before any registration happens, so a failed construction leaves the heap
unchanged; self.title = title invokes the silent title setter. On success
the fresh object (index = current length of the article heap) is appended
and registered on all three sides. -/
def Article.init (st : State) (author magazine title : PyVal) :
    Except PyErr (State × Nat) :=
  match author with
  | PyVal.authorRef ai =>
    match magazine with
    | PyVal.magazineRef mi =>
      let obj : ArticleObj :=
        Article.titleSet { author := some ai, magazine := some mi, title := none } title
      let aid := st.articles.length
      let st1 : State := { st with articles := st.articles ++ [obj] }
      Except.ok (State.registerArticle st1 ai mi aid, aid)
    | _ => Except.error (PyErr.valueError "Magazine must be of type Magazine.")
  | _ => Except.error (PyErr.valueError "Author must be of type Author.")

/-- Author.name setter (lines 98-116): silently ignores non-strings and the
empty string; once _name is set, further assignments are no-ops. -/
def Author.nameSet (a : AuthorObj) (value : PyVal) : AuthorObj :=
  match value with
  | PyVal.str s =>
    if s.length == 0 then a
    else if a.name.isSome then a
    else { a with name := some s }
  | _ => a

/-- Author.name getter (lines 93-96). -/
def Author.nameGet (a : AuthorObj) : Except PyErr String :=
  match a.name with
  | some s => Except.ok s
  | none => Except.error (PyErr.attributeError "_name")

/-- Author.__init__ (lines 89-91): self.name = name through the silent
setter on a fresh object, then self._articles = []. Returns the new state
and the new author's heap index. -/
def Author.init (st : State) (name : PyVal) : State × Nat :=
  ({ st with authors := st.authors ++ [Author.nameSet {} name] }, st.authors.length)

/-- Magazine.name setter (lines 168-183): silently ignores non-strings and
strings of length outside [2,16]; no set-once guard, so valid reassignment
replaces the value. -/
def Magazine.nameSet (m : MagazineObj) (value : PyVal) : MagazineObj :=
  match value with
  | PyVal.str s =>
    if s.length < 2 || s.length > 16 then m
    else { m with name := some s }
  | _ => m

/-- Magazine.name getter (lines 163-166). -/
def Magazine.nameGet (m : MagazineObj) : Except PyErr String :=
  match m.name with
  | some s => Except.ok s
  | none => Except.error (PyErr.attributeError "_name")

/-- Magazine.category setter (lines 190-205): silently ignores non-strings
and the empty string; no set-once guard. -/
def Magazine.categorySet (m : MagazineObj) (value : PyVal) : MagazineObj :=
  match value with
  | PyVal.str s =>
    if s.length == 0 then m
    else { m with category := some s }
  | _ => m

/-- Magazine.category getter (lines 185-188). -/
def Magazine.categoryGet (m : MagazineObj) : Except PyErr String :=
  match m.category with
  | some s => Except.ok s
  | none => Except.error (PyErr.attributeError "_category")

/-- Magazine.__init__ (lines 157-161): self.name and self.category through
the silent setters on a fresh object, then self._articles = []. -/
def Magazine.init (st : State) (name category : PyVal) : State × Nat :=
  ({ st with magazines :=
      st.magazines ++ [Magazine.categorySet (Magazine.nameSet {} name) category] },
    st.magazines.length)

/-- Exception propagation for a compound expression: evaluate the first
part; if it raised, the whole expression raises, otherwise continue. -/
def exceptThen {α β : Type} (e : Except PyErr α) (f : α → Except PyErr β) : Except PyErr β :=
  match e with
  | Except.error err => Except.error err
  | Except.ok a => f a

/-- A Python comprehension that reads attributes left to right, stopping at
the first AttributeError: the effect of list(f(x) for x in l) when f can
raise. -/
def exceptMap {α β : Type} (f : α → Except PyErr β) : List α → Except PyErr (List β)
  | [] => Except.ok []
  | a :: l =>
    match f a with
    | Except.error e => Except.error e
    | Except.ok b =>
      match exceptMap f l with
      | Except.error e => Except.error e
      | Except.ok r => Except.ok (b :: r)

/-- The key list of a Python dict built by counting occurrences: each value
once, in order of first insertion. -/
def distinctKeys {α : Type} [DecidableEq α] : List α → List α
  | [] => []
  | a :: l => a :: (distinctKeys l).filter (fun b => b ≠ a)

/-- Author.articles (lines 118-120): returns self._articles. -/
def Author.articlesOf (st : State) (ai : Nat) : List Nat :=
  (st.authorObj ai).articles

/-- Author.magazines (lines 122-124): list(set(article.magazine for article
in self._articles)); set deduplication modelled by List.dedup. -/
def Author.magazines (st : State) (ai : Nat) : Except PyErr (List Nat) :=
  exceptThen (exceptMap (fun i => Article.magazineGet (st.articleObj i)) (st.authorObj ai).articles)
    (fun mags => Except.ok mags.dedup)

/-- Author.add_article (lines 126-138): constructs Article(self, magazine,
title) and returns it, relying on Article.__init__ for registration. -/
def Author.addArticle (st : State) (ai : Nat) (magazine title : PyVal) :
    Except PyErr (State × Nat) :=
  Article.init st (PyVal.authorRef ai) magazine title

/-- Author.topic_areas (lines 140-150): None when self._articles is empty,
otherwise list(set(magazine.category for magazine in self.magazines())). -/
def Author.topicAreas (st : State) (ai : Nat) : Except PyErr (Option (List String)) :=
  if (st.authorObj ai).articles = [] then Except.ok none
  else
    exceptThen (Author.magazines st ai) (fun mags =>
      exceptThen (exceptMap (fun mi => Magazine.categoryGet (st.magazineObj mi)) mags)
        (fun cats => Except.ok (some cats.dedup)))

/-- Magazine.articles (lines 207-209): returns self._articles. -/
def Magazine.articlesOf (st : State) (mi : Nat) : List Nat :=
  (st.magazineObj mi).articles

/-- Magazine.contributors (lines 211-218): list(set(article.author for
article in self._articles)). -/
def Magazine.contributors (st : State) (mi : Nat) : Except PyErr (List Nat) :=
  exceptThen (exceptMap (fun i => Article.authorGet (st.articleObj i)) (st.magazineObj mi).articles)
    (fun auths => Except.ok auths.dedup)

/-- Magazine.article_titles (lines 220-230): None when there are no
articles, otherwise the ordered list of titles. -/
def Magazine.articleTitles (st : State) (mi : Nat) : Except PyErr (Option (List String)) :=
  if (st.magazineObj mi).articles = [] then Except.ok none
  else
    exceptThen (exceptMap (fun i => Article.titleGet (st.articleObj i)) (st.magazineObj mi).articles)
      (fun titles => Except.ok (some titles))

/-- Magazine.contributing_authors (lines 232-244): counts articles per
author in a dict (keys in first-insertion order, count = number of
occurrences), keeps the authors with count > 2, and returns None instead of
an empty list (the trailing or None). -/
def Magazine.contributingAuthors (st : State) (mi : Nat) :
    Except PyErr (Option (List Nat)) :=
  exceptThen (exceptMap (fun i => Article.authorGet (st.articleObj i)) (st.magazineObj mi).articles)
    (fun auths =>
      let result := (distinctKeys auths).filter (fun a => auths.count a > 2)
      Except.ok (if result = [] then none else some result))

/-- Post-construction assignment article.title = v: runs the silent title
setter on the heap object in place. -/
def State.setArticleTitle (st : State) (i : Nat) (v : PyVal) : State :=
  { st with articles := st.articles.set i (Article.titleSet (st.articleObj i) v) }

/-- Post-construction assignment article.author = v: validating setter,
mutating the heap object on success. -/
def State.setArticleAuthor (st : State) (i : Nat) (v : PyVal) : Except PyErr State :=
  match Article.authorSet (st.articleObj i) v with
  | Except.error e => Except.error e
  | Except.ok a => Except.ok { st with articles := st.articles.set i a }

/-- Post-construction assignment article.magazine = v. -/
def State.setArticleMagazine (st : State) (i : Nat) (v : PyVal) : Except PyErr State :=
  match Article.magazineSet (st.articleObj i) v with
  | Except.error e => Except.error e
  | Except.ok a => Except.ok { st with articles := st.articles.set i a }

/-- Post-construction assignment author.name = v (silent setter). -/
def State.setAuthorName (st : State) (i : Nat) (v : PyVal) : State :=
  { st with authors := st.authors.set i (Author.nameSet (st.authorObj i) v) }

/-- Post-construction assignment magazine.name = v (silent setter). -/
def State.setMagazineName (st : State) (i : Nat) (v : PyVal) : State :=
  { st with magazines := st.magazines.set i (Magazine.nameSet (st.magazineObj i) v) }

/-- Post-construction assignment magazine.category = v (silent setter). -/
def State.setMagazineCategory (st : State) (i : Nat) (v : PyVal) : State :=
  { st with magazines := st.magazines.set i (Magazine.categorySet (st.magazineObj i) v) }

/-- Well-formed heap: every article index stored in an author list, a
magazine list or the registry refers to an existing article. Every state
produced by the module's own operations is well-formed. -/
def State.WF (st : State) : Prop :=
  (∀ a ∈ st.authors, ∀ i ∈ a.articles, i < st.articles.length) ∧
  (∀ m ∈ st.magazines, ∀ i ∈ m.articles, i < st.articles.length) ∧
  (∀ i ∈ st.allArticles, i < st.articles.length)

instance (st : State) : Decidable st.WF := by
  unfold State.WF; infer_instance

/-- The states reachable through the module's public operations, starting
from the empty heap. -/
inductive Reachable : State → Prop where
  | base : Reachable {}
  | newAuthor (st : State) (v : PyVal) : Reachable st → Reachable (Author.init st v).1
  | newMagazine (st : State) (n c : PyVal) :
      Reachable st → Reachable (Magazine.init st n c).1
  | newArticle (st st2 : State) (a m t : PyVal) (i : Nat) :
      Reachable st → Article.init st a m t = Except.ok (st2, i) → Reachable st2
  | setTitle (st : State) (i : Nat) (v : PyVal) :
      Reachable st → Reachable (State.setArticleTitle st i v)
  | setAuthor (st st2 : State) (i : Nat) (v : PyVal) :
      Reachable st → State.setArticleAuthor st i v = Except.ok st2 → Reachable st2
  | setMagazine (st st2 : State) (i : Nat) (v : PyVal) :
      Reachable st → State.setArticleMagazine st i v = Except.ok st2 → Reachable st2
  | setAuthName (st : State) (i : Nat) (v : PyVal) :
      Reachable st → Reachable (State.setAuthorName st i v)
  | setMagName (st : State) (i : Nat) (v : PyVal) :
      Reachable st → Reachable (State.setMagazineName st i v)
  | setMagCategory (st : State) (i : Nat) (v : PyVal) :
      Reachable st → Reachable (State.setMagazineCategory st i v)

/-- Unwrap a constructor result, used only to name concrete test states. -/
def getOk (e : Except PyErr (State × Nat)) : State × Nat :=
  match e with
  | Except.ok p => p
  | Except.error _ => ({}, 0)

/-- Concrete heap: two authors. -/
def stFix2 : State := (Author.init (Author.init {} (PyVal.str "Alice Smith")).1 (PyVal.str "Bob Jones")).1

/-- Concrete heap: two authors and one magazine. -/
def stFix3 : State := (Magazine.init stFix2 (PyVal.str "TechCrunch") (PyVal.str "Tech")).1

/-- Concrete heap: two authors and two magazines. -/
def stFix4 : State := (Magazine.init stFix3 (PyVal.str "Wired") (PyVal.str "Tech")).1

/-- Concrete heap: authors Alice (0) and Bob (1); magazines TechCrunch/Tech
(0), Wired/Tech (1), Vogue/Fashion (2); no articles yet. -/
def stBase : State := (Magazine.init stFix4 (PyVal.str "Vogue") (PyVal.str "Fashion")).1

/-- stBase plus article 0: Alice in TechCrunch. -/
def stArt1 : State :=
  (getOk (Article.init stBase (PyVal.authorRef 0) (PyVal.magazineRef 0) (PyVal.str "Original Title"))).1

/-- stArt1 plus article 1: Alice in Wired. -/
def stArt2 : State :=
  (getOk (Article.init stArt1 (PyVal.authorRef 0) (PyVal.magazineRef 1) (PyVal.str "Second Valid Title"))).1

/-- stArt2 plus article 2: Alice in Vogue. -/
def stArt3 : State :=
  (getOk (Article.init stArt2 (PyVal.authorRef 0) (PyVal.magazineRef 2) (PyVal.str "Third Valid Title"))).1

/-- stArt3 plus article 3: Bob in TechCrunch. -/
def stArt4 : State :=
  (getOk (Article.init stArt3 (PyVal.authorRef 1) (PyVal.magazineRef 0) (PyVal.str "Fourth Valid Title"))).1

/-- stArt4 plus article 4: Alice in TechCrunch. -/
def stArt5 : State :=
  (getOk (Article.init stArt4 (PyVal.authorRef 0) (PyVal.magazineRef 0) (PyVal.str "Fifth Valid Title"))).1

/-- stArt5 plus article 5: Alice in TechCrunch again; TechCrunch now has
three Alice articles and one Bob article. -/
def stArt6 : State :=
  (getOk (Article.init stArt5 (PyVal.authorRef 0) (PyVal.magazineRef 0) (PyVal.str "Sixth Valid Title"))).1

/-- Writing back the element already stored at an index leaves a list
unchanged. -/
theorem set_getD_self {α : Type} (d : α) :
    ∀ (l : List α) (i : Nat), l.set i (l.getD i d) = l := by
  intro l
  induction l with
  | nil => intro i; rfl
  | cons a l ih =>
    intro i
    cases i with
    | zero => simp
    | succ n => simpa using ih n

/-- Reading back the index just written. -/
theorem getD_set_self {α : Type} (d x : α) :
    ∀ (l : List α) (i : Nat), i < l.length → (l.set i x).getD i d = x := by
  intro l
  induction l with
  | nil => intro i h; simp at h
  | cons a l ih =>
    intro i h
    cases i with
    | zero => simp
    | succ n => simpa using ih n (by simpa using h)

/-- An element appended at the end sits at the old length. -/
theorem getD_append_len {α : Type} (d x : α) :
    ∀ (l : List α), (l ++ [x]).getD l.length d = x := by
  intro l
  induction l with
  | nil => rfl
  | cons a l ih => simp [ih]

/-- An in-range read is a member of the list. -/
theorem getD_mem {α : Type} (d : α) :
    ∀ (l : List α) (i : Nat), i < l.length → l.getD i d ∈ l := by
  intro l
  induction l with
  | nil => intro i h; simp at h
  | cons a l ih =>
    intro i h
    cases i with
    | zero => simp
    | succ n =>
      rw [List.getD_cons_succ]
      exact List.mem_cons_of_mem a (ih n (by simpa using h))

/-- Membership in a successful comprehension result. -/
theorem exceptMap_ok_mem {α β : Type} (f : α → Except PyErr β) :
    ∀ (l : List α) (r : List β), exceptMap f l = Except.ok r →
      ∀ b, (b ∈ r ↔ ∃ a ∈ l, f a = Except.ok b) := by
  intro l
  induction l with
  | nil =>
    intro r h b
    simp only [exceptMap] at h
    cases h
    simp
  | cons a l ih =>
    intro r h b
    simp only [exceptMap] at h
    cases hfa : f a with
    | error e => rw [hfa] at h; cases h
    | ok c =>
      rw [hfa] at h
      cases hrest : exceptMap f l with
      | error e => rw [hrest] at h; cases h
      | ok r2 =>
        rw [hrest] at h
        cases h
        have := ih r2 hrest b
        simp only [List.mem_cons, this]
        constructor
        · rintro (rfl | ⟨x, hx, hfx⟩)
          · exact ⟨a, Or.inl rfl, hfa⟩
          · exact ⟨x, Or.inr hx, hfx⟩
        · rintro ⟨x, hx | hx, hfx⟩
          · subst hx; rw [hfa] at hfx; cases hfx; exact Or.inl rfl
          · exact Or.inr ⟨x, hx, hfx⟩

/-- The key list of the counting dict has the same members as the input. -/
theorem mem_distinctKeys {α : Type} [DecidableEq α] (a : α) :
    ∀ l : List α, (a ∈ distinctKeys l ↔ a ∈ l) := by
  intro l
  induction l with
  | nil => simp [distinctKeys]
  | cons x l ih =>
    by_cases hax : a = x
    · subst hax; simp [distinctKeys]
    · simp [distinctKeys, List.mem_filter, hax, ih]

/-- Author-side registration only rewrites the author table. -/
theorem regAuthorSide_frame (st : State) (ai aid : Nat) :
    (st.regAuthorSide ai aid).magazines = st.magazines ∧
    (st.regAuthorSide ai aid).articles = st.articles ∧
    (st.regAuthorSide ai aid).allArticles = st.allArticles := by
  unfold State.regAuthorSide
  split <;> exact ⟨rfl, rfl, rfl⟩

/-- Magazine-side registration only rewrites the magazine table. -/
theorem regMagazineSide_frame (st : State) (mi aid : Nat) :
    (st.regMagazineSide mi aid).authors = st.authors ∧
    (st.regMagazineSide mi aid).articles = st.articles ∧
    (st.regMagazineSide mi aid).allArticles = st.allArticles := by
  unfold State.regMagazineSide
  split <;> exact ⟨rfl, rfl, rfl⟩

/-- Registry-side registration only rewrites the registry. -/
theorem regRegistry_frame (st : State) (aid : Nat) :
    (st.regRegistry aid).authors = st.authors ∧
    (st.regRegistry aid).magazines = st.magazines ∧
    (st.regRegistry aid).articles = st.articles := by
  unfold State.regRegistry
  split <;> exact ⟨rfl, rfl, rfl⟩

/-- Registration never touches the article heap itself. -/
theorem registerArticle_articles (st : State) (ai mi aid : Nat) :
    (State.registerArticle st ai mi aid).articles = st.articles := by
  unfold State.registerArticle
  rw [(regRegistry_frame _ _).2.2, (regMagazineSide_frame _ _ _).2.1,
    (regAuthorSide_frame _ _ _).2.1]

/-- Effect of registration on the registry. -/
theorem registerArticle_allArticles (st : State) (ai mi aid : Nat) :
    (State.registerArticle st ai mi aid).allArticles =
      if aid ∈ st.allArticles then st.allArticles else st.allArticles ++ [aid] := by
  unfold State.registerArticle
  have h : ((st.regAuthorSide ai aid).regMagazineSide mi aid).allArticles = st.allArticles := by
    rw [(regMagazineSide_frame _ _ _).2.2, (regAuthorSide_frame _ _ _).2.2]
  unfold State.regRegistry
  rw [h]
  split <;> simp [h]

/-- Author-side registration of a fresh article appends it. -/
theorem regAuthorSide_fresh (st : State) (ai aid : Nat)
    (h : aid ∉ (st.authorObj ai).articles) :
    st.regAuthorSide ai aid =
      { st with authors := st.authors.set ai ({ st.authorObj ai with articles := (st.authorObj ai).articles ++ [aid] }) } := by
  unfold State.regAuthorSide
  rw [if_neg h]

/-- Magazine-side registration of a fresh article appends it. -/
theorem regMagazineSide_fresh (st : State) (mi aid : Nat)
    (h : aid ∉ (st.magazineObj mi).articles) :
    st.regMagazineSide mi aid =
      { st with magazines := st.magazines.set mi ({ st.magazineObj mi with articles := (st.magazineObj mi).articles ++ [aid] }) } := by
  unfold State.regMagazineSide
  rw [if_neg h]

/-- Registry-side registration of a fresh article appends it. -/
theorem regRegistry_fresh (st : State) (aid : Nat) (h : aid ∉ st.allArticles) :
    st.regRegistry aid = { st with allArticles := st.allArticles ++ [aid] } := by
  unfold State.regRegistry
  rw [if_neg h]

/-- Unfolding lemma for authorObj. -/
theorem authorObj_def (st : State) (i : Nat) : st.authorObj i = st.authors.getD i {} := rfl

/-- Unfolding lemma for magazineObj. -/
theorem magazineObj_def (st : State) (i : Nat) : st.magazineObj i = st.magazines.getD i {} := rfl

/-- Unfolding lemma for articleObj. -/
theorem articleObj_def (st : State) (i : Nat) : st.articleObj i = st.articles.getD i {} := rfl

/-- The author table after registration is the author-side step's table. -/
theorem registerArticle_authors (st : State) (ai mi aid : Nat) :
    (State.registerArticle st ai mi aid).authors = (st.regAuthorSide ai aid).authors := by
  unfold State.registerArticle
  rw [(regRegistry_frame _ _).1, (regMagazineSide_frame _ _ _).1]

/-- The magazine table after registration is the magazine-side step's. -/
theorem registerArticle_magazines (st : State) (ai mi aid : Nat) :
    (State.registerArticle st ai mi aid).magazines =
      ((st.regAuthorSide ai aid).regMagazineSide mi aid).magazines := by
  unfold State.registerArticle
  rw [(regRegistry_frame _ _).2.1]

/-- The author-side step leaves every magazine object unchanged. -/
theorem regAuthorSide_magazineObj (st : State) (ai aid mi : Nat) :
    (st.regAuthorSide ai aid).magazineObj mi = st.magazineObj mi := by
  rw [magazineObj_def, magazineObj_def, (regAuthorSide_frame _ _ _).1]

/-- Author table of a fresh author-side registration. -/
theorem regAuthorSide_authors_fresh (st : State) (ai aid : Nat)
    (h : aid ∉ (st.authorObj ai).articles) :
    (st.regAuthorSide ai aid).authors =
      st.authors.set ai ({ st.authorObj ai with articles := (st.authorObj ai).articles ++ [aid] }) := by
  rw [regAuthorSide_fresh st ai aid h]

/-- Magazine table of a fresh magazine-side registration. -/
theorem regMagazineSide_magazines_fresh (st : State) (mi aid : Nat)
    (h : aid ∉ (st.magazineObj mi).articles) :
    (st.regMagazineSide mi aid).magazines =
      st.magazines.set mi ({ st.magazineObj mi with articles := (st.magazineObj mi).articles ++ [aid] }) := by
  rw [regMagazineSide_fresh st mi aid h]

/-- Registering a fresh article appends it to the author's collection. -/
theorem registerArticle_authorObj_fresh (st : State) (ai mi aid : Nat)
    (hai : ai < st.authors.length) (h1 : aid ∉ (st.authorObj ai).articles) :
    (State.registerArticle st ai mi aid).authorObj ai =
      { st.authorObj ai with articles := (st.authorObj ai).articles ++ [aid] } := by
  rw [authorObj_def (State.registerArticle st ai mi aid) ai]
  rw [registerArticle_authors]
  rw [regAuthorSide_authors_fresh st ai aid h1]
  exact getD_set_self _ _ _ ai hai

/-- Registering a fresh article appends it to the magazine's collection. -/
theorem registerArticle_magazineObj_fresh (st : State) (ai mi aid : Nat)
    (hmi : mi < st.magazines.length) (h2 : aid ∉ (st.magazineObj mi).articles) :
    (State.registerArticle st ai mi aid).magazineObj mi =
      { st.magazineObj mi with articles := (st.magazineObj mi).articles ++ [aid] } := by
  rw [magazineObj_def (State.registerArticle st ai mi aid) mi]
  rw [registerArticle_magazines]
  rw [regMagazineSide_magazines_fresh (st.regAuthorSide ai aid) mi aid
    (by rw [regAuthorSide_magazineObj]; exact h2)]
  rw [regAuthorSide_magazineObj]
  rw [(regAuthorSide_frame st ai aid).1]
  exact getD_set_self _ _ _ mi (by simpa using hmi)

/-- Registering an article already present on all three sides is a no-op. -/
theorem registerArticle_present (st : State) (ai mi aid : Nat)
    (h1 : aid ∈ (st.authorObj ai).articles)
    (h2 : aid ∈ (st.magazineObj mi).articles)
    (h3 : aid ∈ st.allArticles) :
    State.registerArticle st ai mi aid = st := by
  unfold State.registerArticle State.regAuthorSide State.regMagazineSide State.regRegistry
  rw [if_pos h1, if_pos h2, if_pos h3]

/-- A successful construction, written out: the fresh article (with the
title setter applied to the fresh object) is appended to the heap and
registered on all three sides. -/
theorem init_ok (st : State) (ai mi : Nat) (t : PyVal) :
    Article.init st (PyVal.authorRef ai) (PyVal.magazineRef mi) t =
      Except.ok
        (State.registerArticle
          { st with articles := st.articles ++
            [Article.titleSet { author := some ai, magazine := some mi, title := none } t] }
          ai mi st.articles.length,
        st.articles.length) := rfl

/-- A successful construction forces both relationship arguments to be
references of the right class. -/
theorem init_ok_inv (st : State) (au mg t : PyVal) (st2 : State) (aid : Nat)
    (hinit : Article.init st au mg t = Except.ok (st2, aid)) :
    ∃ ai mi, au = PyVal.authorRef ai ∧ mg = PyVal.magazineRef mi := by
  cases au with
  | authorRef ai =>
    cases mg with
    | magazineRef mi => exact ⟨ai, mi, rfl, rfl⟩
    | authorRef i => simp [Article.init] at hinit
    | articleRef i => simp [Article.init] at hinit
    | str s => simp [Article.init] at hinit
    | int n => simp [Article.init] at hinit
    | nil => simp [Article.init] at hinit
  | magazineRef i => simp [Article.init] at hinit
  | articleRef i => simp [Article.init] at hinit
  | str s => simp [Article.init] at hinit
  | int n => simp [Article.init] at hinit
  | nil => simp [Article.init] at hinit

/-- What a successful construction does to the article heap. -/
theorem init_ok_articleObj (st : State) (ai mi : Nat) (t : PyVal) (st2 : State) (aid : Nat)
    (hinit : Article.init st (PyVal.authorRef ai) (PyVal.magazineRef mi) t = Except.ok (st2, aid)) :
    aid = st.articles.length ∧
    st2.articles = st.articles ++
      [Article.titleSet { author := some ai, magazine := some mi, title := none } t] ∧
    st2.articleObj aid =
      Article.titleSet { author := some ai, magazine := some mi, title := none } t := by
  rw [init_ok] at hinit
  injection hinit with hpair
  injection hpair with h1 h2
  subst h1
  subst h2
  refine ⟨rfl, ?_, ?_⟩
  · rw [registerArticle_articles]
  · rw [articleObj_def, registerArticle_articles]
    exact getD_append_len _ _ _

/-- The title setter accepts a valid string on a fresh object. -/
theorem titleSet_valid (a : ArticleObj) (s : String)
    (h5 : 5 ≤ s.length) (h50 : s.length ≤ 50) (hset : a.title = none) :
    Article.titleSet a (PyVal.str s) = { a with title := some s } := by
  simp [Article.titleSet, hset, Nat.not_lt.mpr h5, Nat.not_lt.mpr h50]

/-- The title setter silently drops a string of invalid length. -/
theorem titleSet_invalid_str (a : ArticleObj) (s : String)
    (h : s.length < 5 ∨ 50 < s.length) :
    Article.titleSet a (PyVal.str s) = a := by
  unfold Article.titleSet
  rcases h with h | h
  · simp [h]
  · simp [h]

/-- The title setter silently drops a non-string. -/
theorem titleSet_nonstr (a : ArticleObj) (v : PyVal) (h : ∀ s, v ≠ PyVal.str s) :
    Article.titleSet a v = a := by
  cases v with
  | str s => exact absurd rfl (h s)
  | authorRef i => rfl
  | magazineRef i => rfl
  | articleRef i => rfl
  | int n => rfl
  | nil => rfl

/-- Once the title is present, every assignment is a no-op. -/
theorem titleSet_of_some (a : ArticleObj) (s : String) (v : PyVal)
    (h : a.title = some s) :
    Article.titleSet a v = a := by
  cases v with
  | str s2 =>
    simp only [Article.titleSet]
    split
    · rfl
    · rw [if_pos (by rw [h]; rfl)]
  | authorRef i => rfl
  | magazineRef i => rfl
  | articleRef i => rfl
  | int n => rfl
  | nil => rfl

/-- C1: for an Article constructed with a valid title (length in [5,50]),
every later assignment to title, including of another valid string, is a
no-op on the heap, and reading title afterwards returns the title set at
construction. -/
theorem C1_set_once_title (st st2 : State) (au mg : PyVal) (s : String) (aid : Nat)
    (h5 : 5 ≤ s.length) (h50 : s.length ≤ 50)
    (hinit : Article.init st au mg (PyVal.str s) = Except.ok (st2, aid)) (v : PyVal) :
    State.setArticleTitle st2 aid v = st2 ∧
    Article.titleGet ((State.setArticleTitle st2 aid v).articleObj aid) = Except.ok s := by
  obtain ⟨ai, mi, rfl, rfl⟩ := init_ok_inv st au mg (PyVal.str s) st2 aid hinit
  obtain ⟨haid, hart, hobj⟩ := init_ok_articleObj st ai mi (PyVal.str s) st2 aid hinit
  rw [titleSet_valid _ s h5 h50 rfl] at hobj
  have hno : Article.titleSet (st2.articleObj aid) v = st2.articleObj aid := by
    exact titleSet_of_some _ s v (by rw [hobj])
  have hset : State.setArticleTitle st2 aid v = st2 := by
    unfold State.setArticleTitle
    rw [hno, articleObj_def, set_getD_self]
  refine ⟨hset, ?_⟩
  rw [hset, hobj]
  rfl

/-- Witness for C1 on a concrete heap: the first article of stArt1 keeps
the title Original Title after an attempted replacement. -/
theorem C1_set_once_title_witness :
    (5 ≤ ("Original Title" : String).length ∧ ("Original Title" : String).length ≤ 50) ∧
    State.setArticleTitle stArt1 0 (PyVal.str "Replacement Title Text") = stArt1 ∧
    Article.titleGet ((State.setArticleTitle stArt1 0 (PyVal.str "Replacement Title Text")).articleObj 0) =
      Except.ok "Original Title" :=
  ⟨⟨by decide, by decide⟩,
    C1_set_once_title stBase stArt1 (PyVal.authorRef 0) (PyVal.magazineRef 0)
      "Original Title" 0 (by decide) (by decide) (by rfl)
      (PyVal.str "Replacement Title Text")⟩

/-- The title setter drops any invalid value (non-string or bad length). -/
theorem titleSet_invalid (a : ArticleObj) (v : PyVal)
    (h : ∀ s, v = PyVal.str s → s.length < 5 ∨ 50 < s.length) :
    Article.titleSet a v = a := by
  cases v with
  | str s => exact titleSet_invalid_str a s (h s rfl)
  | authorRef i => rfl
  | magazineRef i => rfl
  | articleRef i => rfl
  | int n => rfl
  | nil => rfl

/-- The name setter drops any invalid value (non-string or empty). -/
theorem nameSet_invalid (a : AuthorObj) (v : PyVal)
    (h : ∀ s, v = PyVal.str s → s.length = 0) :
    Author.nameSet a v = a := by
  cases v with
  | str s => simp [Author.nameSet, h s rfl]
  | authorRef i => rfl
  | magazineRef i => rfl
  | articleRef i => rfl
  | int n => rfl
  | nil => rfl

/-- The author setter rejects any value that is not an Author reference. -/
theorem authorSet_nonauthor (a : ArticleObj) (v : PyVal)
    (h : ∀ i, v ≠ PyVal.authorRef i) :
    Article.authorSet a v = Except.error (PyErr.valueError "Author must be of type Author.") := by
  cases v with
  | authorRef i => exact absurd rfl (h i)
  | magazineRef i => rfl
  | articleRef i => rfl
  | str s => rfl
  | int n => rfl
  | nil => rfl

/-- The magazine setter rejects any value that is not a Magazine
reference. -/
theorem magazineSet_nonmagazine (a : ArticleObj) (v : PyVal)
    (h : ∀ i, v ≠ PyVal.magazineRef i) :
    Article.magazineSet a v = Except.error (PyErr.valueError "Magazine must be of type Magazine.") := by
  cases v with
  | magazineRef i => exact absurd rfl (h i)
  | authorRef i => rfl
  | articleRef i => rfl
  | str s => rfl
  | int n => rfl
  | nil => rfl

/-- Construction with a non-Author creator raises the author ValueError. -/
theorem init_badAuthor (st : State) (a m t : PyVal) (h : ∀ i, a ≠ PyVal.authorRef i) :
    Article.init st a m t = Except.error (PyErr.valueError "Author must be of type Author.") := by
  cases a with
  | authorRef i => exact absurd rfl (h i)
  | magazineRef i => rfl
  | articleRef i => rfl
  | str s => rfl
  | int n => rfl
  | nil => rfl

/-- Construction with a non-Magazine publication raises the magazine
ValueError. -/
theorem init_badMagazine (st : State) (ai : Nat) (m t : PyVal) (h : ∀ i, m ≠ PyVal.magazineRef i) :
    Article.init st (PyVal.authorRef ai) m t = Except.error (PyErr.valueError "Magazine must be of type Magazine.") := by
  cases m with
  | magazineRef i => exact absurd rfl (h i)
  | authorRef i => rfl
  | articleRef i => rfl
  | str s => rfl
  | int n => rfl
  | nil => rfl

/-- C2 counterexample: constructing an Article with the 3-character title
Bad does not fail: the constructor returns normally (and the lenient title
setter simply leaves _title unset), so no error of any kind is raised. -/
theorem C2_counterexample :
    (Article.init stBase (PyVal.authorRef 0) (PyVal.magazineRef 0) (PyVal.str "Bad")).isOk = true := by
  decide

/-- C2 amended: constructing with a title of length outside [5,50] still
succeeds, but yields an Article whose title was never stored, so reading
title raises AttributeError; constructing with a title of length in [5,50]
succeeds and the title reads back. -/
theorem C2_title_validation (st : State) (ai mi : Nat) (bad good : String)
    (hbad : bad.length < 5 ∨ 50 < bad.length)
    (hg5 : 5 ≤ good.length) (hg50 : good.length ≤ 50) :
    (∃ st2 aid, Article.init st (PyVal.authorRef ai) (PyVal.magazineRef mi) (PyVal.str bad) = Except.ok (st2, aid) ∧
      Article.titleGet (st2.articleObj aid) = Except.error (PyErr.attributeError "_title")) ∧
    (∃ st2 aid, Article.init st (PyVal.authorRef ai) (PyVal.magazineRef mi) (PyVal.str good) = Except.ok (st2, aid) ∧
      Article.titleGet (st2.articleObj aid) = Except.ok good) := by
  constructor
  · refine ⟨_, _, init_ok st ai mi (PyVal.str bad), ?_⟩
    rw [(init_ok_articleObj st ai mi (PyVal.str bad) _ _ (init_ok st ai mi (PyVal.str bad))).2.2]
    rw [titleSet_invalid_str _ bad hbad]
    rfl
  · refine ⟨_, _, init_ok st ai mi (PyVal.str good), ?_⟩
    rw [(init_ok_articleObj st ai mi (PyVal.str good) _ _ (init_ok st ai mi (PyVal.str good))).2.2]
    rw [titleSet_valid _ good hg5 hg50 rfl]
    rfl

/-- Witness for the amended C2 with title Bad (3 chars, fails to store)
and OK Title (8 chars, stored). -/
theorem C2_title_validation_witness :
    (("Bad" : String).length < 5 ∨ 50 < ("Bad" : String).length) ∧
    (5 ≤ ("OK Title" : String).length ∧ ("OK Title" : String).length ≤ 50) ∧
    ((∃ st2 aid, Article.init stBase (PyVal.authorRef 0) (PyVal.magazineRef 0) (PyVal.str "Bad") = Except.ok (st2, aid) ∧
        Article.titleGet (st2.articleObj aid) = Except.error (PyErr.attributeError "_title")) ∧
      (∃ st2 aid, Article.init stBase (PyVal.authorRef 0) (PyVal.magazineRef 0) (PyVal.str "OK Title") = Except.ok (st2, aid) ∧
        Article.titleGet (st2.articleObj aid) = Except.ok "OK Title")) :=
  ⟨by decide, ⟨by decide, by decide⟩,
    C2_title_validation stBase 0 0 "Bad" "OK Title" (by decide) (by decide) (by decide)⟩

/-- C3: under the lenient policy the source exhibits, assigning an invalid
value to a validated string field raises nothing at assignment time and
leaves the underscore field unset, so a later read raises AttributeError;
shown for Article.title at construction and Author.name at construction. -/
theorem C3_lenient_assignment (st : State) (ai mi : Nat) (tv nv : PyVal)
    (htv : ∀ s, tv = PyVal.str s → s.length < 5 ∨ 50 < s.length)
    (hnv : ∀ s, nv = PyVal.str s → s.length = 0) :
    (∃ st2 aid, Article.init st (PyVal.authorRef ai) (PyVal.magazineRef mi) tv = Except.ok (st2, aid) ∧
      (st2.articleObj aid).title = none ∧
      Article.titleGet (st2.articleObj aid) = Except.error (PyErr.attributeError "_title")) ∧
    ((Author.init st nv).1.authorObj (Author.init st nv).2).name = none ∧
    Author.nameGet ((Author.init st nv).1.authorObj (Author.init st nv).2) =
      Except.error (PyErr.attributeError "_name") := by
  have hau : (Author.init st nv).1.authorObj (Author.init st nv).2 = Author.nameSet {} nv := by
    rw [authorObj_def]
    exact getD_append_len _ _ _
  rw [nameSet_invalid _ nv hnv] at hau
  refine ⟨⟨_, _, init_ok st ai mi tv, ?_, ?_⟩, ?_, ?_⟩
  · rw [(init_ok_articleObj st ai mi tv _ _ (init_ok st ai mi tv)).2.2]
    rw [titleSet_invalid _ tv htv]
  · rw [(init_ok_articleObj st ai mi tv _ _ (init_ok st ai mi tv)).2.2]
    rw [titleSet_invalid _ tv htv]
    rfl
  · rw [hau]
  · rw [hau]; rfl

/-- Witness for C3: title Bad is silently dropped at construction; an
Author constructed with the empty-string name has no _name to read. -/
theorem C3_lenient_assignment_witness :
    (∃ st2 aid, Article.init stBase (PyVal.authorRef 0) (PyVal.magazineRef 0) (PyVal.str "Bad") = Except.ok (st2, aid) ∧
      (st2.articleObj aid).title = none ∧
      Article.titleGet (st2.articleObj aid) = Except.error (PyErr.attributeError "_title")) ∧
    ((Author.init stBase (PyVal.str "")).1.authorObj (Author.init stBase (PyVal.str "")).2).name = none ∧
    Author.nameGet ((Author.init stBase (PyVal.str "")).1.authorObj (Author.init stBase (PyVal.str "")).2) =
      Except.error (PyErr.attributeError "_name") :=
  C3_lenient_assignment stBase 0 0 (PyVal.str "Bad") (PyVal.str "")
    (fun s h => by cases h; decide) (fun s h => by cases h; decide)

/-- C4: the author/magazine setters, and Article construction through them,
raise ValueError synchronously when given a value of the wrong class, and
succeed on a correctly-typed reference. -/
theorem C4_type_validation (st : State) (a : ArticleObj) (v w t : PyVal) (ai mi : Nat)
    (hv : ∀ i, v ≠ PyVal.authorRef i) (hw : ∀ i, w ≠ PyVal.magazineRef i) :
    Article.authorSet a v = Except.error (PyErr.valueError "Author must be of type Author.") ∧
    (Article.authorSet a (PyVal.authorRef ai)).isOk = true ∧
    Article.magazineSet a w = Except.error (PyErr.valueError "Magazine must be of type Magazine.") ∧
    (Article.magazineSet a (PyVal.magazineRef mi)).isOk = true ∧
    Article.init st v (PyVal.magazineRef mi) t = Except.error (PyErr.valueError "Author must be of type Author.") ∧
    Article.init st (PyVal.authorRef ai) w t = Except.error (PyErr.valueError "Magazine must be of type Magazine.") ∧
    (Article.init st (PyVal.authorRef ai) (PyVal.magazineRef mi) t).isOk = true := by
  refine ⟨authorSet_nonauthor a v hv, rfl, magazineSet_nonmagazine a w hw, rfl,
    init_badAuthor st v (PyVal.magazineRef mi) t hv, init_badMagazine st ai w t hw, ?_⟩
  rw [init_ok]
  rfl

/-- Witness for C4: a string is not an Author; an int is not a Magazine. -/
theorem C4_type_validation_witness :
    Article.authorSet {} (PyVal.str "x") = Except.error (PyErr.valueError "Author must be of type Author.") ∧
    (Article.authorSet {} (PyVal.authorRef 0)).isOk = true ∧
    Article.magazineSet {} (PyVal.int 0) = Except.error (PyErr.valueError "Magazine must be of type Magazine.") ∧
    (Article.magazineSet {} (PyVal.magazineRef 0)).isOk = true ∧
    Article.init stBase (PyVal.str "x") (PyVal.magazineRef 0) (PyVal.str "A Valid Title") = Except.error (PyErr.valueError "Author must be of type Author.") ∧
    Article.init stBase (PyVal.authorRef 0) (PyVal.int 0) (PyVal.str "A Valid Title") = Except.error (PyErr.valueError "Magazine must be of type Magazine.") ∧
    (Article.init stBase (PyVal.authorRef 0) (PyVal.magazineRef 0) (PyVal.str "A Valid Title")).isOk = true :=
  C4_type_validation stBase {} (PyVal.str "x") (PyVal.int 0) (PyVal.str "A Valid Title") 0 0
    (fun _ h => nomatch h) (fun _ h => nomatch h)

/-- In a well-formed heap the next article index is absent from every
collection. -/
theorem WF_fresh (st : State) (hwf : st.WF) (ai mi : Nat)
    (hai : ai < st.authors.length) (hmi : mi < st.magazines.length) :
    st.articles.length ∉ (st.authorObj ai).articles ∧
    st.articles.length ∉ (st.magazineObj mi).articles ∧
    st.articles.length ∉ st.allArticles := by
  obtain ⟨h1, h2, h3⟩ := hwf
  refine ⟨?_, ?_, ?_⟩
  · intro hmem
    exact absurd (h1 _ (getD_mem {} st.authors ai hai) _ hmem) (lt_irrefl _)
  · intro hmem
    exact absurd (h2 _ (getD_mem {} st.magazines mi hmi) _ hmem) (lt_irrefl _)
  · intro hmem
    exact absurd (h3 _ hmem) (lt_irrefl _)

/-- Registering a fresh article puts it exactly once in the author's
collection, the magazine's collection and the registry, and registering
the same article again afterwards changes nothing. -/
theorem registerArticle_counts (st : State) (ai mi aid : Nat)
    (hai : ai < st.authors.length) (hmi : mi < st.magazines.length)
    (f1 : aid ∉ (st.authorObj ai).articles)
    (f2 : aid ∉ (st.magazineObj mi).articles)
    (f3 : aid ∉ st.allArticles) :
    ((State.registerArticle st ai mi aid).authorObj ai).articles.count aid = 1 ∧
    ((State.registerArticle st ai mi aid).magazineObj mi).articles.count aid = 1 ∧
    (State.registerArticle st ai mi aid).allArticles.count aid = 1 ∧
    State.registerArticle (State.registerArticle st ai mi aid) ai mi aid =
      State.registerArticle st ai mi aid := by
  have hA := registerArticle_authorObj_fresh st ai mi aid hai f1
  have hM := registerArticle_magazineObj_fresh st ai mi aid hmi f2
  have hR : (State.registerArticle st ai mi aid).allArticles = st.allArticles ++ [aid] := by
    rw [registerArticle_allArticles, if_neg f3]
  have c1 : ((State.registerArticle st ai mi aid).authorObj ai).articles.count aid = 1 := by
    rw [hA]
    simp [List.count_append, List.count_eq_zero.mpr f1]
  have c2 : ((State.registerArticle st ai mi aid).magazineObj mi).articles.count aid = 1 := by
    rw [hM]
    simp [List.count_append, List.count_eq_zero.mpr f2]
  have c3 : (State.registerArticle st ai mi aid).allArticles.count aid = 1 := by
    rw [hR]
    simp [List.count_append, List.count_eq_zero.mpr f3]
  have m1 : aid ∈ ((State.registerArticle st ai mi aid).authorObj ai).articles := by
    rw [hA]; simp
  have m2 : aid ∈ ((State.registerArticle st ai mi aid).magazineObj mi).articles := by
    rw [hM]; simp
  have m3 : aid ∈ (State.registerArticle st ai mi aid).allArticles := by
    rw [hR]; simp
  exact ⟨c1, c2, c3, registerArticle_present _ ai mi aid m1 m2 m3⟩

/-- C5: after author.add_article(magazine, title) with a valid title, the
new article appears exactly once in the author's collection, once in the
magazine's collection and once in the registry, and re-running the
constructor's registration logic for the same instance changes nothing. -/
theorem C5_bidirectional_registration (st st2 : State) (ai mi aid : Nat) (s : String)
    (hwf : st.WF) (hai : ai < st.authors.length) (hmi : mi < st.magazines.length)
    (h5 : 5 ≤ s.length) (h50 : s.length ≤ 50)
    (hadd : Author.addArticle st ai (PyVal.magazineRef mi) (PyVal.str s) = Except.ok (st2, aid)) :
    (st2.authorObj ai).articles.count aid = 1 ∧
    (st2.magazineObj mi).articles.count aid = 1 ∧
    st2.allArticles.count aid = 1 ∧
    State.registerArticle st2 ai mi aid = st2 := by
  unfold Author.addArticle at hadd
  rw [init_ok] at hadd
  injection hadd with hpair
  injection hpair with h1 h2
  subst h1
  subst h2
  obtain ⟨f1, f2, f3⟩ := WF_fresh st hwf ai mi hai hmi
  exact registerArticle_counts _ ai mi st.articles.length hai hmi f1 f2 f3

/-- Witness for C5 on a concrete heap: Alice adds an article to Wired. -/
theorem C5_bidirectional_registration_witness :
    stArt1.WF ∧
    ((stArt2.authorObj 0).articles.count 1 = 1 ∧
      (stArt2.magazineObj 1).articles.count 1 = 1 ∧
      stArt2.allArticles.count 1 = 1 ∧
      State.registerArticle stArt2 0 1 1 = stArt2) :=
  ⟨by decide,
    C5_bidirectional_registration stArt1 stArt2 0 1 1 "Second Valid Title"
      (by decide) (by decide) (by decide) (by decide) (by decide) (by rfl)⟩

/-- Reduction of contributing_authors once the author reads succeed. -/
theorem contributingAuthors_ok (st : State) (mi : Nat) (auths : List Nat)
    (hm : exceptMap (fun i => Article.authorGet (st.articleObj i)) (st.magazineObj mi).articles =
      Except.ok auths) :
    Magazine.contributingAuthors st mi =
      Except.ok
        (if (distinctKeys auths).filter (fun a => auths.count a > 2) = [] then none
          else some ((distinctKeys auths).filter (fun a => auths.count a > 2))) := by
  unfold Magazine.contributingAuthors
  rw [hm]
  rfl

/-- C6: contributing_authors groups the magazine's articles by author
identity and returns exactly the authors with more than 2 articles there,
and returns None (not an empty list) when no author exceeds 2. -/
theorem C6_contributing_authors (st : State) (mi : Nat) (auths : List Nat)
    (hm : exceptMap (fun i => Article.authorGet (st.articleObj i)) (st.magazineObj mi).articles =
      Except.ok auths) :
    (Magazine.contributingAuthors st mi = Except.ok none ↔ ∀ a, auths.count a ≤ 2) ∧
    (∀ l, Magazine.contributingAuthors st mi = Except.ok (some l) →
      ∀ a, (a ∈ l ↔ 2 < auths.count a)) := by
  rw [contributingAuthors_ok st mi auths hm]
  constructor
  · constructor
    · intro h a
      by_cases hcnt : 2 < auths.count a
      · exfalso
        have hmem : a ∈ (distinctKeys auths).filter (fun x => auths.count x > 2) := by
          rw [List.mem_filter]
          refine ⟨(mem_distinctKeys a auths).mpr (List.count_pos_iff.mp (by omega)), by simpa using hcnt⟩
        split at h
        · rename_i hemp
          rw [hemp] at hmem
          simp at hmem
        · simp at h
      · omega
    · intro h
      rw [if_pos]
      rw [List.filter_eq_nil_iff]
      intro a hmem
      simpa using h a
  · intro l hl a
    split at hl
    · simp at hl
    · rename_i hne
      have hll := Except.ok.inj hl
      injection hll with hl2
      subst hl2
      rw [List.mem_filter]
      constructor
      · rintro ⟨h1, h2⟩
        simpa using h2
      · intro hcnt
        refine ⟨(mem_distinctKeys a auths).mpr (List.count_pos_iff.mp (by omega)), by simpa using hcnt⟩

/-- Witness for C6 on the concrete heap stArt6: TechCrunch has three Alice
articles and one Bob article, so its frequent contributors are exactly
Alice; Wired has a single article, so the query returns None. -/
theorem C6_contributing_authors_witness :
    (exceptMap (fun i => Article.authorGet (stArt6.articleObj i)) (stArt6.magazineObj 0).articles =
      Except.ok [0, 1, 0, 0]) ∧
    (Magazine.contributingAuthors stArt6 0 = Except.ok (some [0]) ∧
      (0 ∈ ([0] : List Nat) ↔ 2 < ([0, 1, 0, 0] : List Nat).count 0) ∧
      (1 ∈ ([0] : List Nat) ↔ 2 < ([0, 1, 0, 0] : List Nat).count 1)) ∧
    (exceptMap (fun i => Article.authorGet (stArt6.articleObj i)) (stArt6.magazineObj 1).articles =
      Except.ok [0]) ∧
    Magazine.contributingAuthors stArt6 1 = Except.ok none :=
  ⟨by rfl,
    ⟨by rfl,
      (C6_contributing_authors stArt6 0 [0, 1, 0, 0] (by rfl)).2 [0] (by rfl) 0,
      (C6_contributing_authors stArt6 0 [0, 1, 0, 0] (by rfl)).2 [0] (by rfl) 1⟩,
    by rfl,
    (C6_contributing_authors stArt6 1 [0] (by rfl)).1.mpr
      (fun a => Nat.le_trans (List.count_le_length a [0]) (by decide))⟩

/-- Reduction of Author.magazines once the magazine reads succeed. -/
theorem magazines_ok (st : State) (ai : Nat) (rawMags : List Nat)
    (hr : exceptMap (fun i => Article.magazineGet (st.articleObj i)) (st.authorObj ai).articles =
      Except.ok rawMags) :
    Author.magazines st ai = Except.ok rawMags.dedup := by
  unfold Author.magazines
  rw [hr]
  rfl

/-- Reduction of topic_areas on a nonempty article list. -/
theorem topicAreas_ok (st : State) (ai : Nat) (rawMags : List Nat) (cats : List String)
    (hne : ¬ (st.authorObj ai).articles = [])
    (hr : exceptMap (fun i => Article.magazineGet (st.articleObj i)) (st.authorObj ai).articles =
      Except.ok rawMags)
    (hc : exceptMap (fun mi => Magazine.categoryGet (st.magazineObj mi)) rawMags.dedup =
      Except.ok cats) :
    Author.topicAreas st ai = Except.ok (some cats.dedup) := by
  unfold Author.topicAreas
  rw [if_neg hne, magazines_ok st ai rawMags hr]
  simp only [exceptThen]
  rw [hc]

/-- C7: topic_areas returns None for an author with no articles, and
otherwise a duplicate-free list containing exactly the categories of the
magazines the author's articles belong to. -/
theorem C7_topic_areas (st : State) (ai : Nat) (rawMags : List Nat) (cats : List String)
    (hr : exceptMap (fun i => Article.magazineGet (st.articleObj i)) (st.authorObj ai).articles =
      Except.ok rawMags)
    (hc : exceptMap (fun mi => Magazine.categoryGet (st.magazineObj mi)) rawMags.dedup =
      Except.ok cats) :
    ((st.authorObj ai).articles = [] → Author.topicAreas st ai = Except.ok none) ∧
    (¬ (st.authorObj ai).articles = [] →
      Author.topicAreas st ai = Except.ok (some cats.dedup) ∧
      cats.dedup.Nodup ∧
      (∀ c, c ∈ cats.dedup ↔
        ∃ mi, mi ∈ rawMags ∧ Magazine.categoryGet (st.magazineObj mi) = Except.ok c) ∧
      (∀ mi, mi ∈ rawMags ↔
        ∃ i, i ∈ (st.authorObj ai).articles ∧ Article.magazineGet (st.articleObj i) = Except.ok mi)) := by
  constructor
  · intro hemp
    unfold Author.topicAreas
    rw [if_pos hemp]
  · intro hne
    refine ⟨topicAreas_ok st ai rawMags cats hne hr hc, List.nodup_dedup cats, ?_, ?_⟩
    · intro c
      rw [List.mem_dedup]
      rw [exceptMap_ok_mem _ rawMags.dedup cats hc c]
      constructor
      · rintro ⟨mi, hmi, hcat⟩
        exact ⟨mi, List.mem_dedup.mp hmi, hcat⟩
      · rintro ⟨mi, hmi, hcat⟩
        exact ⟨mi, List.mem_dedup.mpr hmi, hcat⟩
    · intro mi
      exact exceptMap_ok_mem _ (st.authorObj ai).articles rawMags hr mi

/-- Witness for C7: a fresh author (Bob in stBase) has no articles and gets
None; Alice in stArt3 wrote in TechCrunch/Tech, Wired/Tech and
Vogue/Fashion, and topic_areas returns the deduplicated [Tech, Fashion]. -/
theorem C7_topic_areas_witness :
    ((stBase.authorObj 0).articles = [] ∧ Author.topicAreas stBase 0 = Except.ok none) ∧
    (¬ (stArt3.authorObj 0).articles = [] ∧
      Author.topicAreas stArt3 0 = Except.ok (some (["Tech", "Tech", "Fashion"] : List String).dedup) ∧
      Author.topicAreas stArt3 0 = Except.ok (some ["Tech", "Fashion"]) ∧
      ("Tech" ∈ (["Tech", "Tech", "Fashion"] : List String).dedup ∧
        "Fashion" ∈ (["Tech", "Tech", "Fashion"] : List String).dedup)) :=
  ⟨⟨by rfl,
      (C7_topic_areas stBase 0 [] [] (by rfl) (by rfl)).1 (by rfl)⟩,
    ⟨by decide,
      ((C7_topic_areas stArt3 0 [0, 1, 2] ["Tech", "Tech", "Fashion"] (by rfl) (by rfl)).2
        (by decide)).1,
      by rfl,
      by decide, by decide⟩⟩

/-- Unwrap a setter result, used only to name concrete test states. -/
def getOkState (e : Except PyErr State) : State :=
  match e with
  | Except.ok s => s
  | Except.error _ => {}

/-- stArt1 with article 0 reassigned to author Bob. -/
def stReassigned : State := getOkState (State.setArticleAuthor stArt1 0 (PyVal.authorRef 1))

/-- stArt1 with article 0 reassigned to magazine Wired. -/
def stRemagazined : State := getOkState (State.setArticleMagazine stArt1 0 (PyVal.magazineRef 1))

/-- Post-construction title assignment does not touch the registry and
keeps the article heap length. -/
theorem setArticleTitle_frame (st : State) (i : Nat) (v : PyVal) :
    (State.setArticleTitle st i v).allArticles = st.allArticles ∧
    (State.setArticleTitle st i v).articles.length = st.articles.length := by
  unfold State.setArticleTitle
  exact ⟨rfl, by simp⟩

/-- Successful author reassignment rewrites one article cell only. -/
theorem setArticleAuthor_frame (st st2 : State) (i : Nat) (v : PyVal)
    (h : State.setArticleAuthor st i v = Except.ok st2) :
    st2.allArticles = st.allArticles ∧ st2.articles.length = st.articles.length ∧
    st2.authors = st.authors ∧ st2.magazines = st.magazines := by
  unfold State.setArticleAuthor at h
  cases hset : Article.authorSet (st.articleObj i) v with
  | error e => rw [hset] at h; simp at h
  | ok a =>
    rw [hset] at h
    injection h with h2
    subst h2
    exact ⟨rfl, by simp, rfl, rfl⟩

/-- Successful magazine reassignment rewrites one article cell only. -/
theorem setArticleMagazine_frame (st st2 : State) (i : Nat) (v : PyVal)
    (h : State.setArticleMagazine st i v = Except.ok st2) :
    st2.allArticles = st.allArticles ∧ st2.articles.length = st.articles.length ∧
    st2.authors = st.authors ∧ st2.magazines = st.magazines := by
  unfold State.setArticleMagazine at h
  cases hset : Article.magazineSet (st.articleObj i) v with
  | error e => rw [hset] at h; simp at h
  | ok a =>
    rw [hset] at h
    injection h with h2
    subst h2
    exact ⟨rfl, by simp, rfl, rfl⟩

/-- What construction does to the registry, given that the registry
already lists exactly the existing articles. -/
theorem init_registry (st st2 : State) (a m t : PyVal) (i : Nat)
    (hinv : st.allArticles = List.range st.articles.length)
    (hinit : Article.init st a m t = Except.ok (st2, i)) :
    i = st.articles.length ∧
    st2.allArticles = st.allArticles ++ [st.articles.length] ∧
    st2.articles.length = st.articles.length + 1 := by
  obtain ⟨ai, mi, rfl, rfl⟩ := init_ok_inv st a m t st2 i hinit
  rw [init_ok] at hinit
  injection hinit with hpair
  injection hpair with h1 h2
  subst h1
  subst h2
  refine ⟨rfl, ?_, ?_⟩
  · rw [registerArticle_allArticles]
    split
    · rename_i hmem
      exfalso
      have hmem2 : st.articles.length ∈ st.allArticles := hmem
      rw [hinv] at hmem2
      simp at hmem2
    · rfl
  · rw [registerArticle_articles]
    simp

/-- In every reachable heap, the registry lists exactly the articles ever
constructed, in creation order. -/
theorem reachable_registry (st : State) (h : Reachable st) :
    st.allArticles = List.range st.articles.length := by
  induction h with
  | base => rfl
  | newAuthor st v hst ih => exact ih
  | newMagazine st n c hst ih => exact ih
  | newArticle st st2 a m t i hst hinit ih =>
    obtain ⟨hi, hall, hlen⟩ := init_registry st st2 a m t i ih hinit
    rw [hall, hlen, ih, List.range_succ]
  | setTitle st i v hst ih =>
    rw [(setArticleTitle_frame st i v).1, (setArticleTitle_frame st i v).2, ih]
  | setAuthor st st2 i v hst heq ih =>
    obtain ⟨h1, h2, h3, h4⟩ := setArticleAuthor_frame st st2 i v heq
    rw [h1, h2, ih]
  | setMagazine st st2 i v hst heq ih =>
    obtain ⟨h1, h2, h3, h4⟩ := setArticleMagazine_frame st st2 i v heq
    rw [h1, h2, ih]
  | setAuthName st i v hst ih => exact ih
  | setMagName st i v hst ih => exact ih
  | setMagCategory st i v hst ih => exact ih

/-- C8: in every reachable heap the registry Article.all holds every
article ever constructed exactly once, in creation order (it equals the
list of all heap indices in order); no operation except Article
construction changes it, and a successful construction appends exactly
the new article at the end. -/
theorem C8_registry (st : State) (h : Reachable st) :
    st.allArticles = List.range st.articles.length ∧
    (∀ i v, (State.setArticleTitle st i v).allArticles = st.allArticles) ∧
    (∀ v, (Author.init st v).1.allArticles = st.allArticles) ∧
    (∀ n c, (Magazine.init st n c).1.allArticles = st.allArticles) ∧
    (∀ i v st2, State.setArticleAuthor st i v = Except.ok st2 → st2.allArticles = st.allArticles) ∧
    (∀ i v st2, State.setArticleMagazine st i v = Except.ok st2 → st2.allArticles = st.allArticles) ∧
    (∀ i v, (State.setAuthorName st i v).allArticles = st.allArticles) ∧
    (∀ i v, (State.setMagazineName st i v).allArticles = st.allArticles) ∧
    (∀ i v, (State.setMagazineCategory st i v).allArticles = st.allArticles) ∧
    (∀ a m t st2 i, Article.init st a m t = Except.ok (st2, i) →
      i = st.articles.length ∧ st2.allArticles = st.allArticles ++ [st.articles.length]) := by
  refine ⟨reachable_registry st h, fun i v => (setArticleTitle_frame st i v).1, fun v => rfl,
    fun n c => rfl, fun i v st2 hh => (setArticleAuthor_frame st st2 i v hh).1,
    fun i v st2 hh => (setArticleMagazine_frame st st2 i v hh).1,
    fun i v => rfl, fun i v => rfl, fun i v => rfl,
    fun a m t st2 i hh => ?_⟩
  have hreg := init_registry st st2 a m t i (reachable_registry st h) hh
  exact ⟨hreg.1, hreg.2.1⟩

/-- The concrete heap stArt1 is reachable through the public operations. -/
theorem reachable_stArt1 : Reachable stArt1 :=
  Reachable.newArticle stBase stArt1 (PyVal.authorRef 0) (PyVal.magazineRef 0)
    (PyVal.str "Original Title") 0
    (Reachable.newMagazine stFix4 (PyVal.str "Vogue") (PyVal.str "Fashion")
      (Reachable.newMagazine stFix3 (PyVal.str "Wired") (PyVal.str "Tech")
        (Reachable.newMagazine stFix2 (PyVal.str "TechCrunch") (PyVal.str "Tech")
          (Reachable.newAuthor (Author.init {} (PyVal.str "Alice Smith")).1 (PyVal.str "Bob Jones")
            (Reachable.newAuthor {} (PyVal.str "Alice Smith") Reachable.base)))))
    (by rfl)

/-- Witness for C8 on the concrete reachable heap stArt1, with each
non-constructor operation instantiated and the construction of article 1
(stArt2) appending exactly index 1. -/
theorem C8_registry_witness :
    stArt1.allArticles = List.range stArt1.articles.length ∧
    (State.setArticleTitle stArt1 0 (PyVal.str "Another Title Entirely")).allArticles = stArt1.allArticles ∧
    (Author.init stArt1 (PyVal.str "Carol Smith")).1.allArticles = stArt1.allArticles ∧
    (Magazine.init stArt1 (PyVal.str "Time") (PyVal.str "News")).1.allArticles = stArt1.allArticles ∧
    stReassigned.allArticles = stArt1.allArticles ∧
    stRemagazined.allArticles = stArt1.allArticles ∧
    (State.setAuthorName stArt1 0 (PyVal.str "Carol")).allArticles = stArt1.allArticles ∧
    (State.setMagazineName stArt1 0 (PyVal.str "Time")).allArticles = stArt1.allArticles ∧
    (State.setMagazineCategory stArt1 0 (PyVal.str "News")).allArticles = stArt1.allArticles ∧
    (1 = stArt1.articles.length ∧ stArt2.allArticles = stArt1.allArticles ++ [stArt1.articles.length]) :=
  ⟨(C8_registry stArt1 reachable_stArt1).1,
    (C8_registry stArt1 reachable_stArt1).2.1 0 (PyVal.str "Another Title Entirely"),
    (C8_registry stArt1 reachable_stArt1).2.2.1 (PyVal.str "Carol Smith"),
    (C8_registry stArt1 reachable_stArt1).2.2.2.1 (PyVal.str "Time") (PyVal.str "News"),
    (C8_registry stArt1 reachable_stArt1).2.2.2.2.1 0 (PyVal.authorRef 1) stReassigned (by rfl),
    (C8_registry stArt1 reachable_stArt1).2.2.2.2.2.1 0 (PyVal.magazineRef 1) stRemagazined (by rfl),
    (C8_registry stArt1 reachable_stArt1).2.2.2.2.2.2.1 0 (PyVal.str "Carol"),
    (C8_registry stArt1 reachable_stArt1).2.2.2.2.2.2.2.1 0 (PyVal.str "Time"),
    (C8_registry stArt1 reachable_stArt1).2.2.2.2.2.2.2.2.1 0 (PyVal.str "News"),
    (C8_registry stArt1 reachable_stArt1).2.2.2.2.2.2.2.2.2 (PyVal.authorRef 0) (PyVal.magazineRef 1)
      (PyVal.str "Second Valid Title") stArt2 1 (by rfl)⟩

/-- The magazine name setter drops any invalid value (non-string or
length outside [2,16]). -/
theorem magNameSet_invalid (m : MagazineObj) (v : PyVal)
    (h : ∀ s, v = PyVal.str s → s.length < 2 ∨ 16 < s.length) :
    Magazine.nameSet m v = m := by
  cases v with
  | str s =>
    unfold Magazine.nameSet
    rcases h s rfl with hh | hh
    · simp [hh]
    · simp [hh]
  | authorRef i => rfl
  | magazineRef i => rfl
  | articleRef i => rfl
  | int n => rfl
  | nil => rfl

/-- The magazine category setter drops any invalid value (non-string or
empty). -/
theorem magCategorySet_invalid (m : MagazineObj) (v : PyVal)
    (h : ∀ s, v = PyVal.str s → s.length = 0) :
    Magazine.categorySet m v = m := by
  cases v with
  | str s => simp [Magazine.categorySet, h s rfl]
  | authorRef i => rfl
  | magazineRef i => rfl
  | articleRef i => rfl
  | int n => rfl
  | nil => rfl

/-- C9 counterexample: Author("") and Magazine("A", "") both construct
without raising anything: an entity is produced in each case, with the
invalid field left unset so that reading it raises AttributeError, not a
construction-time validation error. -/
theorem C9_counterexample :
    ((Author.init {} (PyVal.str "")).1.authors.length = 1 ∧
      Author.nameGet ((Author.init {} (PyVal.str "")).1.authorObj 0) =
        Except.error (PyErr.attributeError "_name")) ∧
    ((Magazine.init {} (PyVal.str "A") (PyVal.str "")).1.magazines.length = 1 ∧
      Magazine.nameGet ((Magazine.init {} (PyVal.str "A") (PyVal.str "")).1.magazineObj 0) =
        Except.error (PyErr.attributeError "_name") ∧
      Magazine.categoryGet ((Magazine.init {} (PyVal.str "A") (PyVal.str "")).1.magazineObj 0) =
        Except.error (PyErr.attributeError "_category")) := by
  decide

/-- The category setter never touches the name field. -/
theorem magCategorySet_name (m : MagazineObj) (v : PyVal) :
    (Magazine.categorySet m v).name = m.name := by
  cases v with
  | str s =>
    simp only [Magazine.categorySet]
    split
    · rfl
    · rfl
  | authorRef i => rfl
  | magazineRef i => rfl
  | articleRef i => rfl
  | int n => rfl
  | nil => rfl

/-- The name setter never touches the category field. -/
theorem magNameSet_category (m : MagazineObj) (v : PyVal) :
    (Magazine.nameSet m v).category = m.category := by
  cases v with
  | str s =>
    simp only [Magazine.nameSet]
    split
    · rfl
    · rfl
  | authorRef i => rfl
  | magazineRef i => rfl
  | articleRef i => rfl
  | int n => rfl
  | nil => rfl

/-- C9 amended: constructing an Author whose name is not a non-empty
string, or a Magazine whose name has length outside [2,16] (whatever its
category argument), or a Magazine whose category is empty (whatever its
name argument), succeeds without raising; the entity is produced with the
offending underscore field left unset, so reading that field later raises
AttributeError. -/
theorem C9_name_category_validation (st : State) (nv mv cv mv2 cv2 : PyVal)
    (hnv : ∀ s, nv = PyVal.str s → s.length = 0)
    (hmv : ∀ s, mv = PyVal.str s → s.length < 2 ∨ 16 < s.length)
    (hcv : ∀ s, cv = PyVal.str s → s.length = 0) :
    (Author.init st nv).1.authors.length = st.authors.length + 1 ∧
    ((Author.init st nv).1.authorObj st.authors.length).name = none ∧
    Author.nameGet ((Author.init st nv).1.authorObj st.authors.length) =
      Except.error (PyErr.attributeError "_name") ∧
    (Magazine.init st mv cv2).1.magazines.length = st.magazines.length + 1 ∧
    ((Magazine.init st mv cv2).1.magazineObj st.magazines.length).name = none ∧
    Magazine.nameGet ((Magazine.init st mv cv2).1.magazineObj st.magazines.length) =
      Except.error (PyErr.attributeError "_name") ∧
    (Magazine.init st mv2 cv).1.magazines.length = st.magazines.length + 1 ∧
    ((Magazine.init st mv2 cv).1.magazineObj st.magazines.length).category = none ∧
    Magazine.categoryGet ((Magazine.init st mv2 cv).1.magazineObj st.magazines.length) =
      Except.error (PyErr.attributeError "_category") := by
  have hau : (Author.init st nv).1.authorObj st.authors.length = Author.nameSet {} nv := by
    rw [authorObj_def]
    exact getD_append_len _ _ _
  rw [nameSet_invalid _ nv hnv] at hau
  have hmg1 : (Magazine.init st mv cv2).1.magazineObj st.magazines.length =
      Magazine.categorySet (Magazine.nameSet {} mv) cv2 := by
    rw [magazineObj_def]
    exact getD_append_len _ _ _
  have hname : (Magazine.categorySet (Magazine.nameSet {} mv) cv2).name = none := by
    rw [magCategorySet_name, magNameSet_invalid _ mv hmv]
  have hmg2 : (Magazine.init st mv2 cv).1.magazineObj st.magazines.length =
      Magazine.categorySet (Magazine.nameSet {} mv2) cv := by
    rw [magazineObj_def]
    exact getD_append_len _ _ _
  have hcat : (Magazine.categorySet (Magazine.nameSet {} mv2) cv).category = none := by
    rw [magCategorySet_invalid _ cv hcv, magNameSet_category]
  refine ⟨?_, ?_, ?_, ?_, ?_, ?_, ?_, ?_, ?_⟩
  · simp [Author.init]
  · rw [hau]
  · rw [hau]; rfl
  · simp [Magazine.init]
  · rw [hmg1]
    exact hname
  · rw [hmg1]
    unfold Magazine.nameGet
    rw [hname]
  · simp [Magazine.init]
  · rw [hmg2]
    exact hcat
  · rw [hmg2]
    unfold Magazine.categoryGet
    rw [hcat]

/-- Witness for the amended C9: empty author name; Magazine("A", "Tech")
with only the name invalid; Magazine("Vogue", "") with only the category
invalid. -/
theorem C9_name_category_validation_witness :
    (Author.init stBase (PyVal.str "")).1.authors.length = stBase.authors.length + 1 ∧
    ((Author.init stBase (PyVal.str "")).1.authorObj stBase.authors.length).name = none ∧
    Author.nameGet ((Author.init stBase (PyVal.str "")).1.authorObj stBase.authors.length) =
      Except.error (PyErr.attributeError "_name") ∧
    (Magazine.init stBase (PyVal.str "A") (PyVal.str "Tech")).1.magazines.length = stBase.magazines.length + 1 ∧
    ((Magazine.init stBase (PyVal.str "A") (PyVal.str "Tech")).1.magazineObj stBase.magazines.length).name = none ∧
    Magazine.nameGet ((Magazine.init stBase (PyVal.str "A") (PyVal.str "Tech")).1.magazineObj stBase.magazines.length) =
      Except.error (PyErr.attributeError "_name") ∧
    (Magazine.init stBase (PyVal.str "Vogue") (PyVal.str "")).1.magazines.length = stBase.magazines.length + 1 ∧
    ((Magazine.init stBase (PyVal.str "Vogue") (PyVal.str "")).1.magazineObj stBase.magazines.length).category = none ∧
    Magazine.categoryGet ((Magazine.init stBase (PyVal.str "Vogue") (PyVal.str "")).1.magazineObj stBase.magazines.length) =
      Except.error (PyErr.attributeError "_category") :=
  C9_name_category_validation stBase (PyVal.str "") (PyVal.str "A") (PyVal.str "")
    (PyVal.str "Vogue") (PyVal.str "Tech")
    (fun s h => by cases h; decide) (fun s h => by cases h; decide) (fun s h => by cases h; decide)

/-- Setting one article cell and reading it back. -/
theorem articleObj_set_self (st : State) (i : Nat) (a : ArticleObj)
    (hi : i < st.articles.length) :
    ({ st with articles := st.articles.set i a } : State).articleObj i = a := by
  rw [articleObj_def]
  exact getD_set_self _ _ _ i hi

/-- C10: reassigning an existing article's author (or magazine) to another
valid reference changes only that one reference field: the author and
magazine tables (hence every owned collection) and the registry are
untouched, and the article's other fields keep their values. -/
theorem C10_reassignment_frame (st st2 st3 : State) (i ai2 mi2 : Nat)
    (hi : i < st.articles.length)
    (ha : State.setArticleAuthor st i (PyVal.authorRef ai2) = Except.ok st2)
    (hm : State.setArticleMagazine st i (PyVal.magazineRef mi2) = Except.ok st3) :
    st2.authors = st.authors ∧ st2.magazines = st.magazines ∧ st2.allArticles = st.allArticles ∧
    (∀ j, (st2.authorObj j).articles = (st.authorObj j).articles) ∧
    (∀ j, (st2.magazineObj j).articles = (st.magazineObj j).articles) ∧
    (st2.articleObj i).author = some ai2 ∧
    (st2.articleObj i).magazine = (st.articleObj i).magazine ∧
    (st2.articleObj i).title = (st.articleObj i).title ∧
    st3.authors = st.authors ∧ st3.magazines = st.magazines ∧ st3.allArticles = st.allArticles ∧
    (st3.articleObj i).magazine = some mi2 ∧
    (st3.articleObj i).author = (st.articleObj i).author ∧
    (st3.articleObj i).title = (st.articleObj i).title := by
  unfold State.setArticleAuthor at ha
  unfold State.setArticleMagazine at hm
  simp only [Article.authorSet] at ha
  simp only [Article.magazineSet] at hm
  injection ha with ha2
  injection hm with hm2
  subst ha2
  subst hm2
  refine ⟨rfl, rfl, rfl, fun j => rfl, fun j => rfl, ?_, ?_, ?_, rfl, rfl, rfl, ?_, ?_, ?_⟩
  · rw [articleObj_set_self st i _ hi]
  · rw [articleObj_set_self st i _ hi]
  · rw [articleObj_set_self st i _ hi]
  · rw [articleObj_set_self st i _ hi]
  · rw [articleObj_set_self st i _ hi]
  · rw [articleObj_set_self st i _ hi]

/-- Witness for C10: article 0 of stArt1 reassigned from Alice to Bob and
from TechCrunch to Wired; the collections are untouched, so the article is
still listed under Alice and TechCrunch and not under Bob or Wired. -/
theorem C10_reassignment_frame_witness :
    (0 < stArt1.articles.length ∧
      0 ∈ (stArt1.authorObj 0).articles ∧ 0 ∉ (stArt1.authorObj 1).articles ∧
      0 ∈ (stArt1.magazineObj 0).articles ∧ 0 ∉ (stArt1.magazineObj 1).articles) ∧
    (stReassigned.authors = stArt1.authors ∧ stReassigned.magazines = stArt1.magazines ∧
      stReassigned.allArticles = stArt1.allArticles ∧
      (∀ j, (stReassigned.authorObj j).articles = (stArt1.authorObj j).articles) ∧
      (∀ j, (stReassigned.magazineObj j).articles = (stArt1.magazineObj j).articles) ∧
      (stReassigned.articleObj 0).author = some 1 ∧
      (stReassigned.articleObj 0).magazine = (stArt1.articleObj 0).magazine ∧
      (stReassigned.articleObj 0).title = (stArt1.articleObj 0).title ∧
      stRemagazined.authors = stArt1.authors ∧ stRemagazined.magazines = stArt1.magazines ∧
      stRemagazined.allArticles = stArt1.allArticles ∧
      (stRemagazined.articleObj 0).magazine = some 1 ∧
      (stRemagazined.articleObj 0).author = (stArt1.articleObj 0).author ∧
      (stRemagazined.articleObj 0).title = (stArt1.articleObj 0).title) :=
  ⟨⟨by decide, by decide, by decide, by decide, by decide⟩,
    C10_reassignment_frame stArt1 stReassigned stRemagazined 0 1 1
      (by decide) (by rfl) (by rfl)⟩

end ManyToMany
